import Mathlib

/-!
Verification of the Detection & Threat-Scoring Pipeline of the IDS repository.

The Python sources under `src/` are shallowly embedded below:
* `src/intelligence/ip_enrichment.py`  → `IDS.enrich` (the outbound HTTP lookup
  is passed in as an explicit `Option ApiResponse`: `none` models a transport
  error, timeout or malformed body, i.e. anything the `except` clause catches);
* `src/intelligence/vpn_detector.py`   → `IDS.vpnDetect`;
* `src/intelligence/threat_scoring.py` → `IDS.calculate_score`;
* `src/database/logger.py`             → `IDS.log_attack`, `IDS.update_ip_statistics`,
  `IDS.determine_severity` (SQLite tables are lists of row structures, the
  AUTOINCREMENT id is the row count plus one);
* `src/detection/detector.py`          → `IDS.detect`.

Floats are modelled as rationals (all constants involved are exact decimals),
ISO-8601 timestamp strings as naturals ordered chronologically (lexicographic
order on the strings coincides with chronological order).  Python dictionary
entries that can be absent or `None` are `Option` fields; `dict.get` defaults
are applied exactly where the source applies them.
-/

namespace IDS

/-- IP intelligence record: the dictionaries returned by `IPEnricher.enrich`
(success, localhost and unknown shapes).  Keys absent from some of the shapes
(`country_code`, `region`) and nullable coordinates are `Option` fields. -/
structure IpInfo where
  ip : String
  country : String
  country_code : Option String
  region : Option String
  city : String
  latitude : Option ℚ
  longitude : Option ℚ
  isp : String
  org : String
  asn : String
deriving Repr, DecidableEq

/-- The geolocation service reply as consumed by `IPEnricher.enrich`:
HTTP status code plus the JSON fields the code reads. `as_field` is the
payload key `as`. -/
structure ApiResponse where
  statusCode : Nat
  status : String
  query : String
  country : String
  countryCode : String
  regionName : String
  city : String
  lat : ℚ
  lon : ℚ
  isp : String
  org : String
  as_field : String
deriving Repr, DecidableEq

/-- `IPEnricher._get_localhost_info` (ip_enrichment.py lines 74-85). -/
def localhost_info : IpInfo :=
  { ip := "127.0.0.1", country := "Local", country_code := none, region := none,
    city := "Localhost", latitude := some 0, longitude := some 0,
    isp := "Local", org := "Local", asn := "AS0" }

/-- `IPEnricher._get_unknown_info` (ip_enrichment.py lines 87-98). -/
def unknown_info (ip : String) : IpInfo :=
  { ip := ip, country := "Unknown", country_code := none, region := none,
    city := "Unknown", latitude := none, longitude := none,
    isp := "Unknown", org := "Unknown", asn := "Unknown" }

/-- The record built from a successful service reply
(ip_enrichment.py lines 53-65). -/
def success_info (r : ApiResponse) : IpInfo :=
  { ip := r.query, country := r.country, country_code := some r.countryCode,
    region := some r.regionName, city := r.city, latitude := some r.lat,
    longitude := some r.lon, isp := r.isp, org := r.org, asn := r.as_field }

/-- Whether the lookup outcome is a failure in the sense of the source:
an exception (`none`: transport error, timeout, malformed body), a non-200
HTTP status, or a payload whose `status` field is not `"success"`. -/
def lookupFailed (resp : Option ApiResponse) : Bool :=
  match resp with
  | none => true
  | some r => !(r.statusCode == 200 && r.status == "success")

/-- `IPEnricher.enrich` (ip_enrichment.py lines 24-72).  The outbound HTTP
call is the explicit argument `resp`; local addresses are answered before it
is ever consulted, mirroring the early return in the source. -/
def enrich (resp : Option ApiResponse) (ip_address : String) : IpInfo :=
  if ip_address = "127.0.0.1" ∨ ip_address = "localhost" ∨ ip_address = "0.0.0.0" then
    localhost_info
  else
    match resp with
    | none => unknown_info ip_address
    | some r =>
      if r.statusCode = 200 then
        if r.status = "success" then success_info r
        else unknown_info ip_address
      else unknown_info ip_address

/-- `VPNDetector.vpn_keywords` (vpn_detector.py lines 17-21). -/
def vpn_keywords : List String :=
  ["vpn", "proxy", "hosting", "datacenter", "cloud",
   "amazon", "google", "microsoft", "digital ocean",
   "linode", "ovh", "hetzner"]

/-- `VPNDetector.vpn_asn_prefixes` (vpn_detector.py line 23). -/
def vpn_asn_prefixes : List String :=
  ["AS16509", "AS15169", "AS8075", "AS14061"]

/-- Python `str.lower()` viewed as a character list. -/
def lowerChars (s : String) : List Char := s.toList.map Char.toLower

/-- Python `str.lower()`. -/
def strLower (s : String) : String := String.mk (lowerChars s)

/-- Python substring membership `needle in hay`. -/
def containsSub (needle : List Char) : List Char → Bool
  | [] => needle.isEmpty
  | c :: cs => needle.isPrefixOf (c :: cs) || containsSub needle cs

/-- The per-keyword test of the first loop of `VPNDetector.detect`
(vpn_detector.py lines 44-47): `keyword in org or keyword in isp` with
`org`/`isp` lowercased. -/
def kwMatch (info : IpInfo) (k : String) : Bool :=
  containsSub k.toList (lowerChars info.org) || containsSub k.toList (lowerChars info.isp)

/-- The per-prefix test of the second loop of `VPNDetector.detect`
(vpn_detector.py lines 50-53): `asn_prefix.lower() in asn`. -/
def asnMatch (info : IpInfo) (p : String) : Bool :=
  containsSub (lowerChars p) (lowerChars info.asn)

/-- Result dictionary of `VPNDetector.detect`. -/
structure VpnResult where
  is_vpn : Nat
  probability : ℚ
  indicators : List String
  method : String
deriving Repr, DecidableEq

/-- `VPNDetector.detect` (vpn_detector.py lines 25-64).  The two source loops
accumulate the indicator list and the score; each keyword match adds 0.3,
each ASN-prefix match adds 0.4, the sum is clamped to 1.0, and the verdict
requires the clamped probability to exceed 0.5. -/
def vpnDetect (ip_address : String) (info : IpInfo) : VpnResult :=
  let st1 := vpn_keywords.foldl
    (fun (st : List String × ℚ) k =>
      if kwMatch info k then (st.1 ++ ["VPN keyword in org: " ++ k], st.2 + 3/10) else st)
    ([], 0)
  let st2 := vpn_asn_prefixes.foldl
    (fun (st : List String × ℚ) p =>
      if asnMatch info p then
        (st.1 ++ ["Known cloud provider ASN: " ++ String.mk (lowerChars info.asn)], st.2 + 4/10)
      else st)
    st1
  let probability := min st2.2 1
  { is_vpn := if probability > 1/2 then 1 else 0,
    probability := probability,
    indicators := st2.1,
    method := "heuristic" }

/-- `config['intelligence']['threat_scoring']['weights']` consumed by
`ThreatScorer` (threat_scoring.py line 19). -/
structure ScoringWeights where
  attack_confidence : ℚ
  attack_severity : ℚ
  vpn_probability : ℚ
deriving Repr, DecidableEq

/-- `ThreatScorer.severity_weights` (threat_scoring.py lines 22-28). -/
def severity_weights : List (String × ℚ) :=
  [("normal", 0), ("probe", 3/10), ("dos", 8/10), ("r2l", 7/10), ("u2r", 1)]

/-- `self.severity_weights.get(attack_type.lower(), 0.5)`
(threat_scoring.py line 45). -/
def severityOf (attack_type : String) : ℚ :=
  (severity_weights.lookup (strLower attack_type)).getD (1/2)

/-- `ThreatScorer.calculate_score` (threat_scoring.py lines 30-55).  The
`ip_info` argument is accepted but unused, exactly as in the source. -/
def calculate_score (w : ScoringWeights) (attack_type : String) (confidence : ℚ)
    (ip_info : IpInfo) (vpn_probability : ℚ) : ℚ :=
  let severity := severityOf attack_type
  let confidence_score := confidence * w.attack_confidence
  let severity_score := severity * w.attack_severity
  let vpn_score := vpn_probability * w.vpn_probability
  let total_score := (confidence_score + severity_score + vpn_score) * 100
  min (max total_score 0) 100

/-- `DatabaseLogger._determine_severity` (logger.py lines 155-164). -/
def determine_severity (attack_type : String) : String :=
  let t := strLower attack_type
  if t = "u2r" ∨ t = "dos" then "critical"
  else if t = "r2l" then "high"
  else if t = "probe" then "medium"
  else "low"

/-- The traffic dictionary handed to `IntrusionDetector.detect`.  Keys read
with a plain `.get` are `Option` fields; `src_bytes`, `dst_bytes` and
`duration` are read with `.get(key, 0)` so their defaults are applied at the
use site. -/
structure Traffic where
  source_ip : Option String
  destination_ip : Option String
  destination_port : Option Nat
  protocol : Option String
  service : Option String
  flags : Option String
  src_bytes : Option Nat
  dst_bytes : Option Nat
  duration : Option ℚ
deriving Repr, DecidableEq

/-- The `attack_data` dictionary assembled by `IntrusionDetector.detect`
(detector.py lines 94-127), before `attack_id` is added. -/
structure AttackData where
  timestamp : Nat
  source_ip : String
  destination_ip : Option String
  destination_port : Option Nat
  attack_type : String
  confidence : ℚ
  protocol : Option String
  service : Option String
  flags : Option String
  src_bytes : Nat
  dst_bytes : Nat
  duration : ℚ
  country : String
  city : String
  region : Option String
  latitude : Option ℚ
  longitude : Option ℚ
  asn : String
  organization : String
  is_vpn : Nat
  vpn_probability : ℚ
  threat_score : ℚ
  model_version : String
  raw_features : Traffic
deriving Repr, DecidableEq

/-- One row of the `attack_logs` table (schema.py lines 41-82), as populated
by `DatabaseLogger.log_attack`. -/
structure AttackRow where
  id : Nat
  timestamp : Nat
  source_ip : String
  destination_ip : Option String
  destination_port : Option Nat
  attack_type : String
  attack_subtype : Option String
  confidence : ℚ
  protocol : Option String
  service : Option String
  flags : Option String
  src_bytes : Nat
  dst_bytes : Nat
  duration : ℚ
  packet_count : Option Nat
  country : String
  city : String
  region : Option String
  latitude : Option ℚ
  longitude : Option ℚ
  asn : String
  organization : String
  is_vpn : Nat
  vpn_probability : ℚ
  threat_score : ℚ
  raw_features : Option Traffic
  model_version : String
  detection_method : String
  severity : String
  is_blocked : Nat
  is_alerted : Nat
  notes : Option String
deriving Repr, DecidableEq

/-- One row of the `ip_statistics` table (schema.py lines 85-123), restricted
to the columns `DatabaseLogger.update_ip_statistics` reads or writes. -/
structure IpStatRow where
  ip_address : String
  first_seen : Nat
  last_seen : Nat
  total_attacks : Nat
  dos_attacks : Nat
  probe_attacks : Nat
  r2l_attacks : Nat
  u2r_attacks : Nat
  total_connections : Nat
  total_bytes_sent : Nat
  total_bytes_received : Nat
  country : String
  city : String
  asn : String
  organization : String
  is_vpn : Nat
  vpn_probability : ℚ
  threat_score : ℚ
  updated_at : Nat
deriving Repr, DecidableEq

/-- The UPDATE branch of `DatabaseLogger.update_ip_statistics`
(logger.py lines 106-126) applied to one existing row. -/
def ipStatUpdate (r : IpStatRow) (a : AttackData) : IpStatRow :=
  let t := strLower a.attack_type
  { r with
    last_seen := a.timestamp
    total_attacks := r.total_attacks + 1
    dos_attacks := r.dos_attacks + (if t = "dos" then 1 else 0)
    probe_attacks := r.probe_attacks + (if t = "probe" then 1 else 0)
    r2l_attacks := r.r2l_attacks + (if t = "r2l" then 1 else 0)
    u2r_attacks := r.u2r_attacks + (if t = "u2r" then 1 else 0)
    total_connections := r.total_connections + 1
    total_bytes_sent := r.total_bytes_sent + a.src_bytes
    total_bytes_received := r.total_bytes_received + a.dst_bytes
    country := a.country
    city := a.city
    asn := a.asn
    organization := a.organization
    is_vpn := a.is_vpn
    vpn_probability := a.vpn_probability
    threat_score := a.threat_score
    updated_at := a.timestamp }

/-- The INSERT branch of `DatabaseLogger.update_ip_statistics`
(logger.py lines 128-145): a fresh row seeded from this single event. -/
def ipStatNew (ip_address : String) (a : AttackData) : IpStatRow :=
  let t := strLower a.attack_type
  { ip_address := ip_address
    first_seen := a.timestamp
    last_seen := a.timestamp
    total_attacks := 1
    dos_attacks := if t = "dos" then 1 else 0
    probe_attacks := if t = "probe" then 1 else 0
    r2l_attacks := if t = "r2l" then 1 else 0
    u2r_attacks := if t = "u2r" then 1 else 0
    total_connections := 1
    total_bytes_sent := a.src_bytes
    total_bytes_received := a.dst_bytes
    country := a.country
    city := a.city
    asn := a.asn
    organization := a.organization
    is_vpn := a.is_vpn
    vpn_probability := a.vpn_probability
    threat_score := a.threat_score
    updated_at := a.timestamp }

/-- `DatabaseLogger.update_ip_statistics` (logger.py lines 93-153):
SELECT by address, then UPDATE every row with that address or INSERT a new
one.  The table is a list of rows; the SQL UPDATE with a WHERE clause is a
map touching exactly the matching rows. -/
def update_ip_statistics (ip_address : String) (a : AttackData)
    (db : List IpStatRow) : List IpStatRow :=
  match db.find? (fun r => r.ip_address == ip_address) with
  | some _ => db.map (fun r => if r.ip_address = ip_address then ipStatUpdate r a else r)
  | none => db ++ [ipStatNew ip_address a]

/-- The persisted store: the two tables the detection path writes. -/
structure DB where
  attack_logs : List AttackRow
  ip_statistics : List IpStatRow
deriving Repr, DecidableEq

/-- The row `DatabaseLogger.log_attack` inserts (logger.py lines 37-79),
with the generated AUTOINCREMENT identifier. -/
def attackRowOf (id : Nat) (a : AttackData) : AttackRow :=
  { id := id
    timestamp := a.timestamp
    source_ip := a.source_ip
    destination_ip := a.destination_ip
    destination_port := a.destination_port
    attack_type := a.attack_type
    attack_subtype := none
    confidence := a.confidence
    protocol := a.protocol
    service := a.service
    flags := a.flags
    src_bytes := a.src_bytes
    dst_bytes := a.dst_bytes
    duration := a.duration
    packet_count := none
    country := a.country
    city := a.city
    region := a.region
    latitude := a.latitude
    longitude := a.longitude
    asn := a.asn
    organization := a.organization
    is_vpn := a.is_vpn
    vpn_probability := a.vpn_probability
    threat_score := a.threat_score
    raw_features := some a.raw_features
    model_version := a.model_version
    detection_method := "xgboost"
    severity := determine_severity a.attack_type
    is_blocked := 0
    is_alerted := 0
    notes := none }

/-- `DatabaseLogger.log_attack` (logger.py lines 29-91): append-only insert
returning `cursor.lastrowid` (row count after the insert, ids start at 1). -/
def log_attack (db : DB) (a : AttackData) : DB × Nat :=
  let id := db.attack_logs.length + 1
  ({ db with attack_logs := db.attack_logs ++ [attackRowOf id a] }, id)

/-- The detection configuration read in `IntrusionDetector.__init__`
(detector.py lines 35-36): the global default threshold, the per-category
override table, and the scoring weights. -/
structure DetectorConfig where
  threshold : ℚ
  thresholds : List (String × ℚ)
  weights : ScoringWeights

/-- `self.thresholds.get(predicted_class, self.threshold)`
(detector.py line 68). -/
def resolveThreshold (cfg : DetectorConfig) (predicted_class : String) : ℚ :=
  (cfg.thresholds.lookup predicted_class).getD cfg.threshold

/-- Output of `IDSPredictor.predict_single` as consumed by the detector
(detector.py lines 60-61). -/
structure Prediction where
  predicted_class : String
  confidence : ℚ
deriving Repr, DecidableEq

/-- Per-call environment of `IntrusionDetector.detect`: the geolocation
lookup outcome for each address, whether the `attack_logs` INSERT commits
(`log_ok`) and whether the `ip_statistics` transaction commits (`stats_ok`)
— a `false` flag models the corresponding database call raising after
rollback — and the `datetime.now()` value used for the record timestamp. -/
structure DetectEnv where
  lookup : String → Option ApiResponse
  log_ok : Bool
  stats_ok : Bool
  now : Nat

/-- Python truthiness of `traffic_data.get('destination_port')`
(detector.py line 133): a missing port and port `0` are falsy. -/
def destPortTruthy (traffic : Traffic) : Bool :=
  match traffic.destination_port with
  | some p => p ≠ 0
  | none => false

/-- The enrichment, VPN assessment, scoring and record assembly performed by
the accepted branch of `IntrusionDetector.detect` (detector.py lines 75-127):
the `attack_data` dictionary before `attack_id` is added. -/
def assembleAttack (cfg : DetectorConfig) (env : DetectEnv) (traffic : Traffic)
    (pred : Prediction) : AttackData :=
  let source_ip := (traffic.source_ip).getD "unknown"
  let ip_info := enrich (env.lookup source_ip) source_ip
  let vpn_info := vpnDetect source_ip ip_info
  let threat_score :=
    calculate_score cfg.weights pred.predicted_class pred.confidence
      ip_info vpn_info.probability
  { timestamp := env.now
    source_ip := source_ip
    destination_ip := traffic.destination_ip
    destination_port := traffic.destination_port
    attack_type := pred.predicted_class
    confidence := pred.confidence
    protocol := traffic.protocol
    service := traffic.service
    flags := traffic.flags
    src_bytes := (traffic.src_bytes).getD 0
    dst_bytes := (traffic.dst_bytes).getD 0
    duration := (traffic.duration).getD 0
    country := ip_info.country
    city := ip_info.city
    region := ip_info.region
    latitude := ip_info.latitude
    longitude := ip_info.longitude
    asn := ip_info.asn
    organization := ip_info.org
    is_vpn := vpn_info.is_vpn
    vpn_probability := vpn_info.probability
    threat_score := threat_score
    model_version := "1.0.0"
    raw_features := traffic }

/-- `IntrusionDetector.detect` (detector.py lines 46-142) for a given
classifier output.  Every exception raised inside the body is caught by the
blanket `except` on lines 140-142, which logs and returns `None`:
* a failing `attack_logs` INSERT (`log_ok = false`) rolls back and raises,
  so the call returns `None` with the store unchanged;
* a failing `ip_statistics` transaction (`stats_ok = false`) raises after the
  attack row has already committed, so the call returns `None` with the
  attack row kept;
* when the destination port is truthy, the source then calls
  `self.db_logger.update_port_statistics`, a method `DatabaseLogger` does not
  define, so an `AttributeError` is raised after both writes committed and
  the call returns `None` instead of the assembled record. -/
def detect (cfg : DetectorConfig) (env : DetectEnv) (traffic : Traffic)
    (pred : Prediction) (db : DB) : DB × Option (AttackData × Nat) :=
  if pred.predicted_class = "normal" then (db, none)
  else
    let attack_threshold := resolveThreshold cfg pred.predicted_class
    if pred.confidence < attack_threshold then (db, none)
    else
      let source_ip := (traffic.source_ip).getD "unknown"
      let a : AttackData := assembleAttack cfg env traffic pred
      if env.log_ok then
        let r1 := log_attack db a
        if env.stats_ok then
          let db2 := { r1.1 with
                       ip_statistics := update_ip_statistics source_ip a r1.1.ip_statistics }
          if destPortTruthy traffic then
            (db2, none)
          else
            (db2, some (a, r1.2))
        else
          (r1.1, none)
      else
        (db, none)

/-! ### Concrete inputs used by witnesses and counterexamples -/

/-- Empty store: both tables freshly created. -/
def db0 : DB := { attack_logs := [], ip_statistics := [] }

/-- Configuration of the end-to-end scenario: threshold(dos) = 0.7 via the
override table, default threshold 0.7, weights Wc = 0.4, Ws = 0.4, Wv = 0.2. -/
def cfgC1 : DetectorConfig :=
  { threshold := 7/10
    thresholds := [("dos", 7/10)]
    weights := { attack_confidence := 4/10, attack_severity := 4/10, vpn_probability := 2/10 } }

/-- Observation of the end-to-end scenario: source 203.0.113.5, destination
port 80. -/
def trafficC1 : Traffic :=
  { source_ip := some "203.0.113.5", destination_ip := none, destination_port := some 80,
    protocol := none, service := none, flags := none,
    src_bytes := none, dst_bytes := none, duration := none }

/-- Classifier output of the end-to-end scenario: category dos, confidence 0.95. -/
def predC1 : Prediction := { predicted_class := "dos", confidence := 19/20 }

/-- A dos prediction below every 0.7 threshold. -/
def predLow : Prediction := { predicted_class := "dos", confidence := 1/2 }

/-- A probe prediction whose confidence equals the resolved (default)
threshold of `cfgC1` exactly. -/
def predBoundary : Prediction := { predicted_class := "probe", confidence := 7/10 }

/-- Environment where the lookup fails (the enrichment degrades to the
unknown record, hence VPN probability 0.0) and both database writes commit. -/
def envC1 : DetectEnv :=
  { lookup := fun _ => none, log_ok := true, stats_ok := true, now := 1 }

/-- Environment where the `attack_logs` INSERT fails. -/
def envLogFail : DetectEnv :=
  { lookup := fun _ => none, log_ok := false, stats_ok := true, now := 1 }

/-- Environment where the `ip_statistics` transaction fails after the
attack row committed. -/
def envStatsFail : DetectEnv :=
  { lookup := fun _ => none, log_ok := true, stats_ok := false, now := 1 }

/-- A generic attack record used to drive the statistics upsert directly. -/
def baseAttack : AttackData :=
  { timestamp := 1, source_ip := "203.0.113.5", destination_ip := none,
    destination_port := some 80, attack_type := "dos", confidence := 19/20,
    protocol := none, service := none, flags := none,
    src_bytes := 0, dst_bytes := 0, duration := 0,
    country := "Unknown", city := "Unknown", region := none,
    latitude := none, longitude := none, asn := "Unknown",
    organization := "Unknown", is_vpn := 0, vpn_probability := 0,
    threat_score := 70, model_version := "1.0.0", raw_features := trafficC1 }

/-- An attack record whose category is outside the four counted ones. -/
def attackOther : AttackData :=
  { baseAttack with attack_type := "backdoor", source_ip := "9.9.9.9" }

/-- Event with timestamp 5 for address 2.2.2.2. -/
def attackT5 : AttackData := { baseAttack with timestamp := 5, source_ip := "2.2.2.2" }

/-- Event with timestamp 3 (older than `attackT5`) for address 2.2.2.2. -/
def attackT3 : AttackData := { baseAttack with timestamp := 3, source_ip := "2.2.2.2" }

/-- The table after the `attackT5` event created the row for 2.2.2.2. -/
def dbT5 : List IpStatRow := update_ip_statistics "2.2.2.2" attackT5 []

/-- A probe variant of `baseAttack`. -/
def attackProbe : AttackData := { baseAttack with attack_type := "probe" }

/-- Two events from one address, one dos and one probe. -/
def eventsW : List (String × AttackData) :=
  [("203.0.113.5", baseAttack), ("203.0.113.5", attackProbe)]

/-- Enrichment output where the organization matches exactly the keyword
amazon and the ASN matches exactly the prefix AS16509. -/
def infoC6 : IpInfo :=
  { ip := "198.51.100.7", country := "United States", country_code := some "US",
    region := some "Virginia", city := "Ashburn", latitude := some 39,
    longitude := some (-77), isp := "Example Telecom",
    org := "Amazon Technologies", asn := "AS16509 Amazon.com" }

/-- Enrichment output matching two keywords (amazon and cloud), enough for a
VPN verdict on its own. -/
def infoC10 : IpInfo :=
  { infoC6 with org := "Amazon Cloud Services", asn := "Unknown" }

/-- Arbitrary fixed weights used to instantiate scoring statements. -/
def w0 : ScoringWeights :=
  { attack_confidence := 4/10, attack_severity := 4/10, vpn_probability := 2/10 }

end IDS

/-! ## Helper lemmas -/

namespace IDS

theorem foldl_mark_snd {α : Type} (p : α → Bool) (g : α → String) (c : ℚ) :
    ∀ (l : List α) (init : List String × ℚ),
      (l.foldl (fun st x => if p x then (st.1 ++ [g x], st.2 + c) else st) init).2
        = init.2 + c * l.countP p := by
  intro l
  induction l with
  | nil => intro init; simp
  | cons x xs ih =>
    intro init
    by_cases h : p x
    · simp only [List.foldl_cons, h, if_true, ih, List.countP_cons, h]
      push_cast
      ring
    · simp only [List.foldl_cons, h, if_false, ih, List.countP_cons, h]
      push_cast
      ring

theorem foldl_mark_fst {α : Type} (p : α → Bool) (g : α → String) (c : ℚ) :
    ∀ (l : List α) (init : List String × ℚ),
      (l.foldl (fun st x => if p x then (st.1 ++ [g x], st.2 + c) else st) init).1.length
        = init.1.length + l.countP p := by
  intro l
  induction l with
  | nil => intro init; simp
  | cons x xs ih =>
    intro init
    by_cases h : p x
    · simp only [List.foldl_cons, h, if_true, ih, List.countP_cons, h]
      simp
      omega
    · simp [List.foldl_cons, h, ih, List.countP_cons]

theorem vpnDetect_probability (ip_address : String) (info : IpInfo) :
    (vpnDetect ip_address info).probability
      = min ((3/10) * (vpn_keywords.countP (kwMatch info) : ℚ)
              + (4/10) * (vpn_asn_prefixes.countP (asnMatch info) : ℚ)) 1 := by
  simp only [vpnDetect]
  rw [foldl_mark_snd, foldl_mark_snd]
  ring_nf

theorem vpnDetect_indicators_length (ip_address : String) (info : IpInfo) :
    (vpnDetect ip_address info).indicators.length
      = vpn_keywords.countP (kwMatch info) + vpn_asn_prefixes.countP (asnMatch info) := by
  simp only [vpnDetect]
  rw [foldl_mark_fst, foldl_mark_fst]
  simp

theorem vpnDetect_is_vpn_eq (ip_address : String) (info : IpInfo) :
    (vpnDetect ip_address info).is_vpn
      = if (vpnDetect ip_address info).probability > 1/2 then 1 else 0 := by
  simp only [vpnDetect]

end IDS

/-! ## Claim theorems: VPN heuristic, threat scorer, enrichment -/

namespace IDS

/-- Claim C6: if the organization string contains the keyword amazon, no
other keyword matches the organization or ISP strings, and the ASN string
contains exactly one known cloud-provider ASN prefix, the assessment returns
probability 0.7 (the 0.3 keyword increment plus the 0.4 ASN increment,
clamped at 1.0) and a VPN-likely verdict. -/
theorem vpn_amazon_plus_asn (ip_address : String) (info : IpInfo)
    (h1 : containsSub "amazon".toList (lowerChars info.org) = true)
    (h2 : vpn_keywords.countP (kwMatch info) = 1)
    (h3 : vpn_asn_prefixes.countP (asnMatch info) = 1) :
    (vpnDetect ip_address info).probability = 7/10
      ∧ (vpnDetect ip_address info).is_vpn = 1 := by
  have hp : (vpnDetect ip_address info).probability = 7/10 := by
    rw [vpnDetect_probability, h2, h3]
    norm_num
  refine ⟨hp, ?_⟩
  rw [vpnDetect_is_vpn_eq, hp]
  norm_num

/-- Witness for C6: a concrete enrichment record with organization
`Amazon Technologies` and ASN `AS16509 Amazon.com`. -/
theorem vpn_amazon_plus_asn_witness :
    (vpnDetect "198.51.100.7" infoC6).probability = 7/10
      ∧ (vpnDetect "198.51.100.7" infoC6).is_vpn = 1 :=
  vpn_amazon_plus_asn "198.51.100.7" infoC6 (by decide) (by decide) (by decide)

/-- Claim C10: a VPN-likely verdict requires at least two matched
indicators, since one keyword match (0.3) or one ASN match (0.4) alone never
exceeds the 0.5 decision threshold. -/
theorem vpn_verdict_needs_two_indicators (ip_address : String) (info : IpInfo)
    (h : (vpnDetect ip_address info).is_vpn = 1) :
    2 ≤ (vpnDetect ip_address info).indicators.length := by
  rw [vpnDetect_indicators_length]
  by_contra hlt
  have hle : vpn_keywords.countP (kwMatch info) + vpn_asn_prefixes.countP (asnMatch info) ≤ 1 := by
    omega
  have hb : (vpnDetect ip_address info).probability ≤ 4/10 := by
    rw [vpnDetect_probability]
    have hkc : (vpn_keywords.countP (kwMatch info) : ℚ)
        + (vpn_asn_prefixes.countP (asnMatch info) : ℚ) ≤ 1 := by
      exact_mod_cast hle
    have hk0 : (0:ℚ) ≤ (vpn_keywords.countP (kwMatch info) : ℚ) := by positivity
    have ha0 : (0:ℚ) ≤ (vpn_asn_prefixes.countP (asnMatch info) : ℚ) := by positivity
    calc min ((3/10) * (vpn_keywords.countP (kwMatch info) : ℚ)
            + (4/10) * (vpn_asn_prefixes.countP (asnMatch info) : ℚ)) 1
        ≤ (3/10) * (vpn_keywords.countP (kwMatch info) : ℚ)
            + (4/10) * (vpn_asn_prefixes.countP (asnMatch info) : ℚ) := min_le_left _ _
      _ ≤ 4/10 := by nlinarith
  rw [vpnDetect_is_vpn_eq] at h
  by_cases hgt : (vpnDetect ip_address info).probability > 1/2
  · linarith
  · rw [if_neg hgt] at h
    exact absurd h (by norm_num)

/-- Witness for C10: an organization matching both amazon and cloud yields a
VPN verdict, and indeed at least two indicators. -/
theorem vpn_verdict_needs_two_indicators_witness :
    2 ≤ (vpnDetect "1.2.3.4" infoC10).indicators.length := by
  refine vpn_verdict_needs_two_indicators "1.2.3.4" infoC10 ?_
  have h2 : vpn_keywords.countP (kwMatch infoC10) = 2 := by decide
  have h3 : vpn_asn_prefixes.countP (asnMatch infoC10) = 0 := by decide
  have hp : (vpnDetect "1.2.3.4" infoC10).probability = 6/10 := by
    rw [vpnDetect_probability, h2, h3]
    norm_num
  rw [vpnDetect_is_vpn_eq, hp]
  norm_num

/-- Claim C5: the threat score equals the weighted sum
confidence·Wc + severity·Ws + vpnProbability·Wv scaled by 100 and clamped to
[0,100]; the result lies in [0,100] for all inputs and weights; and the
severity table is normal 0.0, probe 0.3, r2l 0.7, dos 0.8, u2r 1.0, with 0.5
for unrecognized categories. -/
theorem calculate_score_spec (w : ScoringWeights) (attack_type : String)
    (confidence vpnP : ℚ) (ip_info : IpInfo) :
    calculate_score w attack_type confidence ip_info vpnP
      = min (max ((confidence * w.attack_confidence
          + severityOf attack_type * w.attack_severity
          + vpnP * w.vpn_probability) * 100) 0) 100
    ∧ 0 ≤ calculate_score w attack_type confidence ip_info vpnP
    ∧ calculate_score w attack_type confidence ip_info vpnP ≤ 100
    ∧ severityOf "normal" = 0 ∧ severityOf "probe" = 3/10 ∧ severityOf "r2l" = 7/10
    ∧ severityOf "dos" = 8/10 ∧ severityOf "u2r" = 1
    ∧ (strLower attack_type ∉ ["normal", "probe", "dos", "r2l", "u2r"] →
        severityOf attack_type = 1/2) := by
  refine ⟨rfl, ?_, ?_, ?_, ?_, ?_, ?_, ?_, ?_⟩
  · exact le_min (le_max_right _ _) (by norm_num)
  · exact min_le_right _ _
  · have h : strLower "normal" = "normal" := by decide
    simp [severityOf, severity_weights, h, List.lookup]
  · have h : strLower "probe" = "probe" := by decide
    simp [severityOf, severity_weights, h, List.lookup]
  · have h : strLower "r2l" = "r2l" := by decide
    simp [severityOf, severity_weights, h, List.lookup]
  · have h : strLower "dos" = "dos" := by decide
    simp [severityOf, severity_weights, h, List.lookup]
  · have h : strLower "u2r" = "u2r" := by decide
    simp [severityOf, severity_weights, h, List.lookup]
  · intro h
    simp only [List.mem_cons, List.mem_singleton, not_or] at h
    obtain ⟨h1, h2, h3, h4, h5, -⟩ := h
    have b1 : (strLower attack_type == "normal") = false := beq_eq_false_iff_ne.mpr h1
    have b2 : (strLower attack_type == "probe") = false := beq_eq_false_iff_ne.mpr h2
    have b3 : (strLower attack_type == "dos") = false := beq_eq_false_iff_ne.mpr h3
    have b4 : (strLower attack_type == "r2l") = false := beq_eq_false_iff_ne.mpr h4
    have b5 : (strLower attack_type == "u2r") = false := beq_eq_false_iff_ne.mpr h5
    simp [severityOf, severity_weights, List.lookup, b1, b2, b3, b4, b5]

/-- Witness for C5: the unrecognized category backdoor gets severity 0.5,
and a concrete score is nonnegative. -/
theorem calculate_score_spec_witness :
    severityOf "backdoor" = 1/2 ∧ 0 ≤ calculate_score w0 "backdoor" (19/20) (unknown_info "x") 0 :=
  ⟨(calculate_score_spec w0 "backdoor" (19/20) 0 (unknown_info "x")).2.2.2.2.2.2.2.2 (by decide),
   (calculate_score_spec w0 "backdoor" (19/20) 0 (unknown_info "x")).2.1⟩

/-- Claim C7: enrichment of a loopback/local address returns the fixed local
record whatever the network would answer (no dependence on the lookup), and
for any other address every failed lookup (exception, non-200 status, or a
payload without success status) returns the fixed unknown record. -/
theorem enrich_local_and_fallback (ip_address : String) (resp : Option ApiResponse) :
    ((ip_address = "127.0.0.1" ∨ ip_address = "localhost" ∨ ip_address = "0.0.0.0") →
        ∀ other : Option ApiResponse, enrich other ip_address = localhost_info)
    ∧ (¬(ip_address = "127.0.0.1" ∨ ip_address = "localhost" ∨ ip_address = "0.0.0.0") →
        lookupFailed resp = true → enrich resp ip_address = unknown_info ip_address) := by
  constructor
  · intro hl other
    simp [enrich, hl]
  · intro hl hf
    unfold enrich
    rw [if_neg hl]
    cases resp with
    | none => rfl
    | some r =>
      by_cases h200 : r.statusCode = 200
      · by_cases hsucc : r.status = "success"
        · exfalso
          simp [lookupFailed, h200, hsucc] at hf
        · simp [h200, hsucc]
      · simp [h200]

/-- Witness for C7: loopback is answered locally, and a failed lookup for a
public address yields the unknown record. -/
theorem enrich_local_and_fallback_witness :
    enrich none "127.0.0.1" = localhost_info
      ∧ enrich none "203.0.113.5" = unknown_info "203.0.113.5" :=
  ⟨(enrich_local_and_fallback "127.0.0.1" none).1 (Or.inl rfl) none,
   (enrich_local_and_fallback "203.0.113.5" none).2 (by decide) rfl⟩

end IDS
namespace IDS

theorem update_mem_cases (ip : String) (a : AttackData) (db : List IpStatRow) (r : IpStatRow)
    (hr : r ∈ update_ip_statistics ip a db) :
    r ∈ db ∨ (∃ s, s ∈ db ∧ r = ipStatUpdate s a) ∨ r = ipStatNew ip a := by
  unfold update_ip_statistics at hr
  rcases hfind : List.find? (fun x => x.ip_address == ip) db with - | s
  · rw [hfind] at hr
    simp only [List.mem_append, List.mem_singleton] at hr
    tauto
  · rw [hfind] at hr
    rcases List.mem_map.mp hr with ⟨s2, hs2, hf⟩
    by_cases heq : s2.ip_address = ip
    · right; left
      exact ⟨s2, hs2, by rw [← hf, if_pos heq]⟩
    · left
      rw [← hf, if_neg heq]
      exact hs2

theorem ipStatUpdate_total (s : IpStatRow) (a : AttackData) :
    (ipStatUpdate s a).total_attacks = s.total_attacks + 1 := rfl

theorem ipStatUpdate_sum_le (s : IpStatRow) (a : AttackData) :
    (ipStatUpdate s a).dos_attacks + (ipStatUpdate s a).probe_attacks
      + (ipStatUpdate s a).r2l_attacks + (ipStatUpdate s a).u2r_attacks
    ≤ s.dos_attacks + s.probe_attacks + s.r2l_attacks + s.u2r_attacks + 1 := by
  by_cases hd : strLower a.attack_type = "dos"
  · simp [ipStatUpdate, hd] <;> omega
  · by_cases hp : strLower a.attack_type = "probe"
    · simp [ipStatUpdate, hd, hp] <;> omega
    · by_cases hr : strLower a.attack_type = "r2l"
      · simp [ipStatUpdate, hd, hp, hr] <;> omega
      · by_cases hu : strLower a.attack_type = "u2r"
        · simp [ipStatUpdate, hd, hp, hr, hu] <;> omega
        · simp [ipStatUpdate, hd, hp, hr, hu] <;> omega

theorem ipStatUpdate_sum_eq (s : IpStatRow) (a : AttackData)
    (h : strLower a.attack_type ∈ (["dos", "probe", "r2l", "u2r"] : List String)) :
    (ipStatUpdate s a).dos_attacks + (ipStatUpdate s a).probe_attacks
      + (ipStatUpdate s a).r2l_attacks + (ipStatUpdate s a).u2r_attacks
    = s.dos_attacks + s.probe_attacks + s.r2l_attacks + s.u2r_attacks + 1 := by
  simp only [List.mem_cons, List.mem_singleton] at h
  rcases h with hd | hp | hr | hu | h
  · simp [ipStatUpdate, hd] <;> omega
  · simp [ipStatUpdate, hp] <;> omega
  · simp [ipStatUpdate, hr] <;> omega
  · simp [ipStatUpdate, hu] <;> omega
  · exact absurd h (by simp)

theorem ipStatNew_total (ip : String) (a : AttackData) :
    (ipStatNew ip a).total_attacks = 1 := rfl

theorem ipStatNew_sum_le (ip : String) (a : AttackData) :
    (ipStatNew ip a).dos_attacks + (ipStatNew ip a).probe_attacks
      + (ipStatNew ip a).r2l_attacks + (ipStatNew ip a).u2r_attacks ≤ 1 := by
  by_cases hd : strLower a.attack_type = "dos"
  · simp [ipStatNew, hd] <;> omega
  · by_cases hp : strLower a.attack_type = "probe"
    · simp [ipStatNew, hd, hp] <;> omega
    · by_cases hr : strLower a.attack_type = "r2l"
      · simp [ipStatNew, hd, hp, hr] <;> omega
      · by_cases hu : strLower a.attack_type = "u2r"
        · simp [ipStatNew, hd, hp, hr, hu] <;> omega
        · simp [ipStatNew, hd, hp, hr, hu] <;> omega

theorem ipStatNew_sum_eq (ip : String) (a : AttackData)
    (h : strLower a.attack_type ∈ (["dos", "probe", "r2l", "u2r"] : List String)) :
    (ipStatNew ip a).dos_attacks + (ipStatNew ip a).probe_attacks
      + (ipStatNew ip a).r2l_attacks + (ipStatNew ip a).u2r_attacks = 1 := by
  simp only [List.mem_cons, List.mem_singleton] at h
  rcases h with hd | hp | hr | hu | h
  · simp [ipStatNew, hd] <;> omega
  · simp [ipStatNew, hp] <;> omega
  · simp [ipStatNew, hr] <;> omega
  · simp [ipStatNew, hu] <;> omega
  · exact absurd h (by simp)

theorem foldl_rows_inv (P : IpStatRow → Prop) (Q : String × AttackData → Prop)
    (hstep : ∀ (db : List IpStatRow) (e : String × AttackData), Q e →
      (∀ r ∈ db, P r) → ∀ r ∈ update_ip_statistics e.1 e.2 db, P r) :
    ∀ (events : List (String × AttackData)) (db : List IpStatRow),
      (∀ e ∈ events, Q e) → (∀ r ∈ db, P r) →
      ∀ r ∈ events.foldl (fun db e => update_ip_statistics e.1 e.2 db) db, P r := by
  intro events
  induction events with
  | nil =>
    intro db hq h0
    simpa using h0
  | cons e es ih =>
    intro db hq h0
    simp only [List.foldl_cons]
    exact ih _ (fun x hx => hq x (List.mem_cons_of_mem _ hx))
      (hstep db e (hq e (List.mem_cons_self _ _)) h0)

end IDS

namespace IDS

/-- Counterexample for C3: one upsert with the category backdoor produces a
row with total_attacks = 1 whose four per-category counters sum to 0, so the
claimed equality fails for arbitrary attack_type strings. -/
theorem ipstats_sum_counterexample :
    (update_ip_statistics "9.9.9.9" attackOther []).map
      (fun r => (r.total_attacks, r.dos_attacks + r.probe_attacks + r.r2l_attacks + r.u2r_attacks))
      = [(1, 0)] := by decide

/-- Claim C3 (amended): after any sequence of upserts from the empty table,
every row satisfies dos + probe + r2l + u2r ≤ total_attacks, with equality
whenever every applied attack_type lowercases to one of the four counted
categories; an event outside those categories increments total_attacks only. -/
theorem ipstats_total_vs_sum (events : List (String × AttackData)) :
    (∀ r ∈ events.foldl (fun db e => update_ip_statistics e.1 e.2 db) [],
        r.dos_attacks + r.probe_attacks + r.r2l_attacks + r.u2r_attacks ≤ r.total_attacks)
    ∧ ((∀ e ∈ events, strLower e.2.attack_type ∈ (["dos", "probe", "r2l", "u2r"] : List String)) →
        ∀ r ∈ events.foldl (fun db e => update_ip_statistics e.1 e.2 db) [],
          r.total_attacks = r.dos_attacks + r.probe_attacks + r.r2l_attacks + r.u2r_attacks) := by
  constructor
  · refine foldl_rows_inv
      (fun r => r.dos_attacks + r.probe_attacks + r.r2l_attacks + r.u2r_attacks ≤ r.total_attacks)
      (fun _ => True) ?_ events [] (fun _ _ => trivial) (by simp)
    intro db e _ hdb r hr
    rcases update_mem_cases e.1 e.2 db r hr with h | ⟨s, hs, rfl⟩ | rfl
    · exact hdb r h
    · have := hdb s hs
      have h1 := ipStatUpdate_sum_le s e.2
      have h2 := ipStatUpdate_total s e.2
      omega
    · have h1 := ipStatNew_sum_le e.1 e.2
      have h2 := ipStatNew_total e.1 e.2
      omega
  · intro hq
    refine foldl_rows_inv
      (fun r => r.total_attacks = r.dos_attacks + r.probe_attacks + r.r2l_attacks + r.u2r_attacks)
      (fun e => strLower e.2.attack_type ∈ (["dos", "probe", "r2l", "u2r"] : List String))
      ?_ events [] hq (by simp)
    intro db e he hdb r hr
    rcases update_mem_cases e.1 e.2 db r hr with h | ⟨s, hs, rfl⟩ | rfl
    · exact hdb r h
    · have := hdb s hs
      have h1 := ipStatUpdate_sum_eq s e.2 he
      have h2 := ipStatUpdate_total s e.2
      omega
    · have h1 := ipStatNew_sum_eq e.1 e.2 he
      have h2 := ipStatNew_total e.1 e.2
      omega

/-- Witness for C3: a dos event followed by a probe event from one address
leaves every row with total_attacks equal to the sum of its counters. -/
theorem ipstats_total_vs_sum_witness :
    ((eventsW.foldl (fun db e => update_ip_statistics e.1 e.2 db) []).all
      (fun r => r.total_attacks == r.dos_attacks + r.probe_attacks + r.r2l_attacks + r.u2r_attacks))
      = true := by
  rw [List.all_eq_true]
  intro r hr
  have h := (ipstats_total_vs_sum eventsW).2 (by decide) r hr
  exact beq_iff_eq.mpr h

/-- Counterexample for C9: an upsert carrying an older event timestamp (3)
applied to a row whose last_seen is 5 rewinds last_seen to 3, so last_seen is
not monotonically advanced by arbitrary upsert sequences. -/
theorem ipstats_lastseen_counterexample :
    (update_ip_statistics "2.2.2.2" attackT3 dbT5).map (fun r => (r.first_seen, r.last_seen))
      = [(5, 3)] := by decide

/-- Claim C9 (amended): an upsert hitting an existing row leaves first_seen
of every row unchanged and overwrites the matching row's last_seen with the
event's timestamp; consequently last_seen advances exactly when the event's
timestamp is at least the row's current last_seen. -/
theorem ipstats_update_frame (ip : String) (a : AttackData) (db : List IpStatRow)
    (hex : (List.find? (fun x => x.ip_address == ip) db).isSome = true) :
    ((update_ip_statistics ip a db).map (fun r => r.first_seen)
        = db.map (fun r => r.first_seen))
    ∧ ((update_ip_statistics ip a db).map (fun r => r.last_seen)
        = db.map (fun r => if r.ip_address = ip then a.timestamp else r.last_seen))
    ∧ (∀ r ∈ update_ip_statistics ip a db, r.ip_address = ip → r.last_seen = a.timestamp)
    ∧ (∀ s ∈ db, ∀ r ∈ update_ip_statistics ip a db,
        s.ip_address = ip → r.ip_address = ip → s.last_seen ≤ a.timestamp →
        s.last_seen ≤ r.last_seen) := by
  rcases Option.isSome_iff_exists.mp hex with ⟨s0, hs0⟩
  have hupd : update_ip_statistics ip a db
      = db.map (fun r => if r.ip_address = ip then ipStatUpdate r a else r) := by
    unfold update_ip_statistics
    rw [hs0]
  have hmem : ∀ r ∈ update_ip_statistics ip a db, r.ip_address = ip → r.last_seen = a.timestamp := by
    intro r hr hip
    rw [hupd] at hr
    rcases List.mem_map.mp hr with ⟨s2, hs2, hf⟩
    by_cases heq : s2.ip_address = ip
    · rw [if_pos heq] at hf
      rw [← hf]
      rfl
    · rw [if_neg heq] at hf
      rw [← hf] at hip
      exact absurd hip heq
  refine ⟨?_, ?_, hmem, ?_⟩
  · rw [hupd, List.map_map]
    apply List.map_congr_left
    intro r hr
    by_cases heq : r.ip_address = ip
    · simp [heq, ipStatUpdate]
    · simp [heq]
  · rw [hupd, List.map_map]
    apply List.map_congr_left
    intro r hr
    by_cases heq : r.ip_address = ip
    · simp [heq, ipStatUpdate]
    · simp [heq]
  · intro s hs r hr hsip hrip hle
    rw [hmem r hr hrip]
    exact hle

/-- Witness for C9: on the concrete one-row table, first_seen is preserved
and the updated row's last_seen equals the new event's timestamp. -/
theorem ipstats_update_frame_witness :
    ((update_ip_statistics "2.2.2.2" attackT3 dbT5).map (fun r => r.first_seen)
        = dbT5.map (fun r => r.first_seen))
    ∧ (∀ r ∈ update_ip_statistics "2.2.2.2" attackT3 dbT5,
        r.ip_address = "2.2.2.2" → r.last_seen = attackT3.timestamp) :=
  ⟨(ipstats_update_frame "2.2.2.2" attackT3 dbT5 (by decide)).1,
   (ipstats_update_frame "2.2.2.2" attackT3 dbT5 (by decide)).2.2.1⟩

end IDS

namespace IDS

theorem detect_reject (cfg : DetectorConfig) (env : DetectEnv) (traffic : Traffic)
    (pred : Prediction) (db : DB) (hn : pred.predicted_class ≠ "normal")
    (hlt : pred.confidence < resolveThreshold cfg pred.predicted_class) :
    detect cfg env traffic pred db = (db, none) := by
  simp only [detect]
  rw [if_neg hn, if_pos hlt]

theorem detect_logfail (cfg : DetectorConfig) (env : DetectEnv) (traffic : Traffic)
    (pred : Prediction) (db : DB) (hn : pred.predicted_class ≠ "normal")
    (hge : ¬ pred.confidence < resolveThreshold cfg pred.predicted_class)
    (hlog : env.log_ok = false) :
    detect cfg env traffic pred db = (db, none) := by
  simp only [detect]
  rw [if_neg hn, if_neg hge, hlog]
  simp

theorem detect_statsfail (cfg : DetectorConfig) (env : DetectEnv) (traffic : Traffic)
    (pred : Prediction) (db : DB) (hn : pred.predicted_class ≠ "normal")
    (hge : ¬ pred.confidence < resolveThreshold cfg pred.predicted_class)
    (hlog : env.log_ok = true) (hstats : env.stats_ok = false) :
    detect cfg env traffic pred db
      = ({ attack_logs := db.attack_logs
            ++ [attackRowOf (db.attack_logs.length + 1) (assembleAttack cfg env traffic pred)],
           ip_statistics := db.ip_statistics }, none) := by
  simp only [detect, log_attack]
  rw [if_neg hn, if_neg hge, hlog, hstats]
  simp

theorem detect_accept (cfg : DetectorConfig) (env : DetectEnv) (traffic : Traffic)
    (pred : Prediction) (db : DB) (hn : pred.predicted_class ≠ "normal")
    (hge : ¬ pred.confidence < resolveThreshold cfg pred.predicted_class)
    (hlog : env.log_ok = true) (hstats : env.stats_ok = true) :
    detect cfg env traffic pred db
      = (if destPortTruthy traffic then
          ({ attack_logs := db.attack_logs
              ++ [attackRowOf (db.attack_logs.length + 1) (assembleAttack cfg env traffic pred)],
             ip_statistics := update_ip_statistics ((traffic.source_ip).getD "unknown")
               (assembleAttack cfg env traffic pred) db.ip_statistics }, none)
        else
          ({ attack_logs := db.attack_logs
              ++ [attackRowOf (db.attack_logs.length + 1) (assembleAttack cfg env traffic pred)],
             ip_statistics := update_ip_statistics ((traffic.source_ip).getD "unknown")
               (assembleAttack cfg env traffic pred) db.ip_statistics },
           some (assembleAttack cfg env traffic pred, db.attack_logs.length + 1))) := by
  simp only [detect, log_attack]
  rw [if_neg hn, if_neg hge, hlog, hstats]
  simp

/-- Claim C8: for the benign category normal, detect returns no record and
leaves the store untouched, for every confidence value and every environment
(so neither enrichment nor persistence can have been consulted). -/
theorem detect_normal_no_record (cfg : DetectorConfig) (env : DetectEnv) (traffic : Traffic)
    (confidence : ℚ) (db : DB) :
    detect cfg env traffic { predicted_class := "normal", confidence := confidence } db
      = (db, none) := by
  simp [detect]

end IDS

namespace IDS

/-- Claim C4: when confidence equals the resolved per-category threshold the
detection is accepted (an attack row is persisted); a confidence strictly
below the threshold yields the unchanged store and no record; and the store
can only remain unchanged when confidence is strictly below the threshold. -/
theorem detect_threshold_boundary (cfg : DetectorConfig) (env : DetectEnv) (traffic : Traffic)
    (pred : Prediction) (db : DB) (hn : pred.predicted_class ≠ "normal")
    (hlog : env.log_ok = true) (hstats : env.stats_ok = true) :
    (pred.confidence = resolveThreshold cfg pred.predicted_class →
        (detect cfg env traffic pred db).1.attack_logs.length = db.attack_logs.length + 1)
    ∧ (pred.confidence < resolveThreshold cfg pred.predicted_class →
        detect cfg env traffic pred db = (db, none))
    ∧ ((detect cfg env traffic pred db).1 = db →
        pred.confidence < resolveThreshold cfg pred.predicted_class) := by
  have haccept : ¬ pred.confidence < resolveThreshold cfg pred.predicted_class →
      (detect cfg env traffic pred db).1.attack_logs.length = db.attack_logs.length + 1 := by
    intro hge
    rw [detect_accept cfg env traffic pred db hn hge hlog hstats]
    by_cases hp : destPortTruthy traffic
    · simp [hp]
    · simp [hp]
  refine ⟨?_, ?_, ?_⟩
  · intro heq
    exact haccept (by rw [heq]; exact lt_irrefl _)
  · intro hlt
    exact detect_reject cfg env traffic pred db hn hlt
  · intro hdb
    by_contra hge
    have hlen := haccept hge
    rw [hdb] at hlen
    omega

/-- Witness for C4: a probe prediction with confidence exactly 0.7 (the
resolved default threshold) appends one attack row. -/
theorem detect_threshold_boundary_witness :
    (detect cfgC1 envC1 trafficC1 predBoundary db0).1.attack_logs.length
      = db0.attack_logs.length + 1 := by
  have hthr : resolveThreshold cfgC1 predBoundary.predicted_class = 7/10 := by
    simp [resolveThreshold, cfgC1, predBoundary, List.lookup]
  exact (detect_threshold_boundary cfgC1 envC1 trafficC1 predBoundary db0
    (by decide) rfl rfl).1 (by rw [hthr]; rfl)

/-- Claim C2 (amended): for an accepted detection, a failing attack-log
INSERT makes detect return the no-detection outcome with the store unchanged,
and a failing statistics transaction makes detect return the no-detection
outcome with the attack row already committed — in both cases the blanket
except swallows the error instead of surfacing a distinct failure. -/
theorem detect_persistence_failure_swallowed (cfg : DetectorConfig) (env : DetectEnv)
    (traffic : Traffic) (pred : Prediction) (db : DB)
    (hn : pred.predicted_class ≠ "normal")
    (hacc : resolveThreshold cfg pred.predicted_class ≤ pred.confidence) :
    (env.log_ok = false → detect cfg env traffic pred db = (db, none))
    ∧ (env.log_ok = true → env.stats_ok = false →
        (detect cfg env traffic pred db).2 = none
        ∧ (detect cfg env traffic pred db).1.attack_logs.length = db.attack_logs.length + 1
        ∧ (detect cfg env traffic pred db).1.ip_statistics = db.ip_statistics) := by
  have hge : ¬ pred.confidence < resolveThreshold cfg pred.predicted_class := not_lt.mpr hacc
  constructor
  · intro hlog
    exact detect_logfail cfg env traffic pred db hn hge hlog
  · intro hlog hstats
    rw [detect_statsfail cfg env traffic pred db hn hge hlog hstats]
    simp

/-- Counterexample for C2: with the attack-log INSERT failing, the accepted
dos detection returns exactly (db0, none) — the same value a rejected
low-confidence detection returns — so no distinct persistence error reaches
the caller. -/
theorem detect_persistence_failure_counterexample :
    detect cfgC1 envLogFail trafficC1 predC1 db0 = (db0, none)
    ∧ detect cfgC1 envC1 trafficC1 predLow db0 = (db0, none) := by
  have hthr : resolveThreshold cfgC1 "dos" = 7/10 := by
    simp [resolveThreshold, cfgC1, List.lookup]
  constructor
  · refine detect_logfail cfgC1 envLogFail trafficC1 predC1 db0 (by decide) ?_ rfl
    show ¬ (19:ℚ)/20 < resolveThreshold cfgC1 "dos"
    rw [hthr]
    norm_num
  · refine detect_reject cfgC1 envC1 trafficC1 predLow db0 (by decide) ?_
    show (1:ℚ)/2 < resolveThreshold cfgC1 "dos"
    rw [hthr]
    norm_num

/-- Witness for C2: with a failing statistics transaction the call returns
none while the attack row is already stored. -/
theorem detect_persistence_failure_swallowed_witness :
    (detect cfgC1 envStatsFail trafficC1 predC1 db0).2 = none
    ∧ (detect cfgC1 envStatsFail trafficC1 predC1 db0).1.attack_logs.length = 1
    ∧ (detect cfgC1 envStatsFail trafficC1 predC1 db0).1.ip_statistics = [] := by
  have hthr : resolveThreshold cfgC1 predC1.predicted_class = 7/10 := by
    simp [resolveThreshold, cfgC1, predC1, List.lookup]
  have h := (detect_persistence_failure_swallowed cfgC1 envStatsFail trafficC1 predC1 db0
    (by decide) (by rw [hthr]; show (7:ℚ)/10 ≤ 19/20; norm_num)).2 rfl rfl
  exact ⟨h.1, by simpa using h.2.1, by simpa using h.2.2⟩

theorem assembleC1 : assembleAttack cfgC1 envC1 trafficC1 predC1 = baseAttack := by
  have h2 : vpn_keywords.countP (kwMatch (unknown_info "203.0.113.5")) = 0 := by decide
  have h3 : vpn_asn_prefixes.countP (asnMatch (unknown_info "203.0.113.5")) = 0 := by decide
  have hprob : (vpnDetect "203.0.113.5" (unknown_info "203.0.113.5")).probability = 0 := by
    rw [vpnDetect_probability, h2, h3]
    norm_num
  have hvpn : (vpnDetect "203.0.113.5" (unknown_info "203.0.113.5")).is_vpn = 0 := by
    rw [vpnDetect_is_vpn_eq, hprob]
    norm_num
  have hsev : severityOf "dos" = 8/10 := by
    have h : strLower "dos" = "dos" := by decide
    simp [severityOf, severity_weights, h, List.lookup]
  have hscore : calculate_score cfgC1.weights "dos" (19/20) (unknown_info "203.0.113.5")
      ((vpnDetect "203.0.113.5" (unknown_info "203.0.113.5")).probability) = 70 := by
    rw [hprob]
    simp only [calculate_score, hsev, cfgC1]
    norm_num [min_def, max_def]
  have hsi : (trafficC1.source_ip).getD "unknown" = "203.0.113.5" := rfl
  have hen : enrich (envC1.lookup "203.0.113.5") "203.0.113.5" = unknown_info "203.0.113.5" := by
    decide
  simp only [assembleAttack, hsi, hen]
  rw [show predC1.predicted_class = "dos" from rfl, show predC1.confidence = (19:ℚ)/20 from rfl]
  rw [hscore, hvpn, hprob]
  rfl

/-- Claim C1: running the end-to-end dos scenario (confidence 0.95,
threshold 0.7, severity 0.8, weights 0.4/0.4/0.2, VPN probability 0.0 via a
failed lookup) writes exactly one attack_logs row with threat score 70 and
one fresh ip_statistics row with total_attacks = 1 and dos_attacks = 1 — but
returns none instead of the assembled record, because the source then calls
the missing DatabaseLogger.update_port_statistics (destination port 80 is
truthy) and the AttributeError is swallowed by the blanket except. -/
theorem detect_dos_scenario :
    (detect cfgC1 envC1 trafficC1 predC1 db0).1.attack_logs = [attackRowOf 1 baseAttack]
    ∧ (detect cfgC1 envC1 trafficC1 predC1 db0).1.ip_statistics
        = [ipStatNew "203.0.113.5" baseAttack]
    ∧ (attackRowOf 1 baseAttack).threat_score = 70
    ∧ (attackRowOf 1 baseAttack).attack_type = "dos"
    ∧ (attackRowOf 1 baseAttack).severity = "critical"
    ∧ (ipStatNew "203.0.113.5" baseAttack).total_attacks = 1
    ∧ (ipStatNew "203.0.113.5" baseAttack).dos_attacks = 1
    ∧ (ipStatNew "203.0.113.5" baseAttack).first_seen = 1
    ∧ (ipStatNew "203.0.113.5" baseAttack).last_seen = 1
    ∧ (detect cfgC1 envC1 trafficC1 predC1 db0).2 = none := by
  have hthr : resolveThreshold cfgC1 predC1.predicted_class = 7/10 := by
    simp [resolveThreshold, cfgC1, predC1, List.lookup]
  have hge : ¬ predC1.confidence < resolveThreshold cfgC1 predC1.predicted_class := by
    rw [hthr]
    show ¬ (19:ℚ)/20 < 7/10
    norm_num
  have hd := detect_accept cfgC1 envC1 trafficC1 predC1 db0 (by decide) hge rfl rfl
  rw [assembleC1] at hd
  have hport : destPortTruthy trafficC1 = true := by decide
  rw [hport] at hd
  simp only [if_true] at hd
  have hupd : update_ip_statistics "203.0.113.5" baseAttack []
      = [ipStatNew "203.0.113.5" baseAttack] := by
    unfold update_ip_statistics
    simp [List.find?]
  have hsi : (trafficC1.source_ip).getD "unknown" = "203.0.113.5" := rfl
  rw [hsi] at hd
  refine ⟨?_, ?_, rfl, rfl, by decide, rfl, by decide, rfl, rfl, ?_⟩
  · rw [hd]
    show ([] : List AttackRow) ++ [attackRowOf (0 + 1) baseAttack] = [attackRowOf 1 baseAttack]
    simp
  · rw [hd]
    show update_ip_statistics "203.0.113.5" baseAttack ([] : List IpStatRow)
      = [ipStatNew "203.0.113.5" baseAttack]
    exact hupd
  · rw [hd]

end IDS
